import Mathlib

/-!
Shallow embedding of the IPGuardian marketplace contract
(`src/IPRightsStore.sol`) and of the read accessors of its TypeScript
client (`ContractService`, `src/unnamed/part_002`).

Conventions of the embedding:
* `uint256` values are `Nat`.  Solidity 0.8 checked arithmetic reverts on
  overflow rather than wrapping, and the item/rental counters are
  OpenZeppelin `Counters` whose unchecked increment cannot wrap within any
  feasible number of calls, so arithmetic is modelled as unbounded.
* addresses are `Nat` (`0` is the zero address).
* Solidity mappings are total functions with zero-initialised defaults.
* A reverting call is `Except.error msg` (the whole call has no effect);
  a successful call is `Except.ok` with the return value and/or updated
  state.  `msg.sender`, `msg.value` and `block.timestamp` are explicit
  parameters.  Ether transfers (`payable(..).transfer`) only move balances,
  which are outside the modelled state.
-/

/-- `struct IPItem` of `IPRightsStore.sol`. -/
structure IPItem where
  itemId : Nat
  title : String
  description : String
  blobId : String
  owner : Nat
  price : Nat
  rentalPrice : Nat
  isActive : Bool
  createdAt : Nat
  totalRentals : Nat
  totalRevenue : Nat
  deriving DecidableEq, Repr

/-- `struct Rental` of `IPRightsStore.sol`. -/
structure Rental where
  rentalId : Nat
  itemId : Nat
  renter : Nat
  startTime : Nat
  endTime : Nat
  amountPaid : Nat
  isActive : Bool
  deriving DecidableEq, Repr

/-- `struct OwnershipRecord` of `IPRightsStore.sol`. -/
structure OwnershipRecord where
  owner : Nat
  timestamp : Nat
  price : Nat
  deriving DecidableEq, Repr

/-- The zero-initialised `IPItem` a Solidity mapping returns for an
unwritten key. -/
def zeroItem : IPItem :=
  { itemId := 0, title := "", description := "", blobId := "", owner := 0,
    price := 0, rentalPrice := 0, isActive := false, createdAt := 0,
    totalRentals := 0, totalRevenue := 0 }

/-- The zero-initialised `Rental` a Solidity mapping returns for an
unwritten key. -/
def zeroRental : Rental :=
  { rentalId := 0, itemId := 0, renter := 0, startTime := 0, endTime := 0,
    amountPaid := 0, isActive := false }

/-- The storage of `IPRightsStore`: the two counters and the seven
mappings, each mapping a total function with zero default. -/
structure ContractState where
  itemIds : Nat
  rentalIds : Nat
  items : Nat → IPItem
  rentals : Nat → Rental
  ownershipHistory : Nat → List OwnershipRecord
  userItems : Nat → List Nat
  userRentals : Nat → List Nat
  hasRented : Nat → Nat → Bool
  itemRenters : Nat → List Nat

/-- Freshly deployed contract: counters at `0`, all mappings empty. -/
def initState : ContractState :=
  { itemIds := 0, rentalIds := 0, items := fun _ => zeroItem,
    rentals := fun _ => zeroRental, ownershipHistory := fun _ => [],
    userItems := fun _ => [], userRentals := fun _ => [],
    hasRented := fun _ _ => false, itemRenters := fun _ => [] }

/-- The storage writes of a successful `createItem` (lines 131-155):
increment the counter, store the item with the caller as owner and
`isActive = true`, index it under the caller, append the initial
ownership record with price `0`. -/
def createItemEffect (s : ContractState) (sender now : Nat)
    (title description blobId : String) (price rentalPrice : Nat) :
    ContractState :=
  { s with
    itemIds := s.itemIds + 1,
    items := fun k =>
      if k = s.itemIds + 1 then
        { itemId := s.itemIds + 1, title := title,
          description := description, blobId := blobId,
          owner := sender, price := price, rentalPrice := rentalPrice,
          isActive := true, createdAt := now, totalRentals := 0,
          totalRevenue := 0 }
      else s.items k,
    userItems := fun a =>
      if a = sender then s.userItems a ++ [s.itemIds + 1]
      else s.userItems a,
    ownershipHistory := fun k =>
      if k = s.itemIds + 1 then s.ownershipHistory k ++ [⟨sender, now, 0⟩]
      else s.ownershipHistory k }

/-- `createItem` (lines 120-160): validates title, blobId and prices,
then commits `createItemEffect` and returns the new item id. -/
def createItem (s : ContractState) (sender now : Nat)
    (title description blobId : String) (price rentalPrice : Nat) :
    Except String (Nat × ContractState) :=
  if title = "" then .error "Title cannot be empty"
  else if blobId = "" then .error "Blob ID cannot be empty"
  else if ¬ (price > 0 ∨ rentalPrice > 0) then
    .error "Must set either purchase or rental price"
  else
    .ok (s.itemIds + 1,
      createItemEffect s sender now title description blobId price rentalPrice)

/-- The storage writes of a successful `purchaseItem` (lines 177-190):
the owner is replaced by the caller, the item id is pushed onto the
caller's index (the previous owner's index is untouched) and an
ownership record with the item's price is appended.  The ether transfers
to the previous owner and back to the caller only move balances. -/
def purchaseItemEffect (s : ContractState) (sender now itemId : Nat) :
    ContractState :=
  { s with
    items := fun k =>
      if k = itemId then { s.items itemId with owner := sender }
      else s.items k,
    userItems := fun a =>
      if a = sender then s.userItems a ++ [itemId] else s.userItems a,
    ownershipHistory := fun k =>
      if k = itemId then
        s.ownershipHistory k ++ [⟨sender, now, (s.items itemId).price⟩]
      else s.ownershipHistory k }

/-- `purchaseItem` (lines 166-203): the `itemExists` modifier runs first
(id bound, then active flag), then the body's requires in order, then
the committed effect. -/
def purchaseItem (s : ContractState) (sender value now itemId : Nat) :
    Except String ContractState :=
  if ¬ (itemId ≤ s.itemIds) then .error "Item does not exist"
  else if ¬ (s.items itemId).isActive then .error "Item is not active"
  else if ¬ ((s.items itemId).price > 0) then .error "Item is not for sale"
  else if ¬ (value ≥ (s.items itemId).price) then .error "Insufficient payment"
  else if (s.items itemId).owner = sender then
    .error "Cannot purchase your own item"
  else
    .ok (purchaseItemEffect s sender now itemId)

/-- The storage writes of a successful `rentItem` (lines 231-255): the
rental is stored under the incremented rental counter with
`isActive = true` and the truncating cost
`(endTime - startTime) * rentalPrice / 86400` (1 day = 86400 s), the
item's statistics are bumped, the rental id is pushed onto the caller's
rental index, and the caller is added to the item's renter list on
their first rental of it. -/
def rentItemEffect (s : ContractState)
    (sender itemId startTime endTime : Nat) : ContractState :=
  { s with
    rentalIds := s.rentalIds + 1,
    rentals := fun k =>
      if k = s.rentalIds + 1 then
        { rentalId := s.rentalIds + 1, itemId := itemId, renter := sender,
          startTime := startTime, endTime := endTime,
          amountPaid := (endTime - startTime) * (s.items itemId).rentalPrice / 86400,
          isActive := true }
      else s.rentals k,
    items := fun k =>
      if k = itemId then
        { s.items itemId with
          totalRentals := (s.items itemId).totalRentals + 1,
          totalRevenue := (s.items itemId).totalRevenue +
            (endTime - startTime) * (s.items itemId).rentalPrice / 86400 }
      else s.items k,
    userRentals := fun a =>
      if a = sender then s.userRentals a ++ [s.rentalIds + 1]
      else s.userRentals a,
    hasRented := fun i a =>
      if i = itemId ∧ a = sender then true else s.hasRented i a,
    itemRenters := fun i =>
      if i = itemId ∧ ¬ s.hasRented itemId sender then
        s.itemRenters i ++ [sender]
      else s.itemRenters i }

/-- `rentItem` (lines 211-266): modifiers `itemExists` then
`validRentalPeriod` (365 days = 31536000 s), then the body's requires
with the truncating cost, then the committed effect. -/
def rentItem (s : ContractState)
    (sender value now itemId startTime endTime : Nat) :
    Except String ContractState :=
  if ¬ (itemId ≤ s.itemIds) then .error "Item does not exist"
  else if ¬ (s.items itemId).isActive then .error "Item is not active"
  else if ¬ (startTime ≥ now) then .error "Start time must be in the future"
  else if ¬ (endTime > startTime) then .error "End time must be after start time"
  else if ¬ (endTime ≤ now + 31536000) then .error "Rental period too long"
  else if ¬ ((s.items itemId).rentalPrice > 0) then
    .error "Item is not available for rent"
  else if (s.items itemId).owner = sender then
    .error "Cannot rent your own item"
  else if ¬ (value ≥ (endTime - startTime) * (s.items itemId).rentalPrice / 86400) then
    .error "Insufficient payment for rental"
  else
    .ok (rentItemEffect s sender itemId startTime endTime)

/-- The storage writes of a successful `updateItemPrices` (lines
282-283): both prices overwritten unconditionally. -/
def updateItemPricesEffect (s : ContractState)
    (itemId newPrice newRentalPrice : Nat) : ContractState :=
  { s with
    items := fun k =>
      if k = itemId then
        { s.items itemId with price := newPrice,
                              rentalPrice := newRentalPrice }
      else s.items k }

/-- `updateItemPrices` (lines 274-286): modifier `onlyItemOwner` runs
before `itemExists`; overwrites both prices unconditionally. -/
def updateItemPrices (s : ContractState)
    (sender itemId newPrice newRentalPrice : Nat) :
    Except String ContractState :=
  if ¬ ((s.items itemId).owner = sender) then .error "Not the item owner"
  else if ¬ (itemId ≤ s.itemIds) then .error "Item does not exist"
  else if ¬ (s.items itemId).isActive then .error "Item is not active"
  else if ¬ (newPrice > 0 ∨ newRentalPrice > 0) then
    .error "Must set either purchase or rental price"
  else
    .ok (updateItemPricesEffect s itemId newPrice newRentalPrice)

/-- The storage write of a successful `deactivateItem` (line 293):
`isActive := false`. -/
def deactivateItemEffect (s : ContractState) (itemId : Nat) :
    ContractState :=
  { s with
    items := fun k =>
      if k = itemId then { s.items itemId with isActive := false }
      else s.items k }

/-- `deactivateItem` (lines 292-295): modifier `onlyItemOwner` runs
before `itemExists`; sets `isActive := false`. -/
def deactivateItem (s : ContractState) (sender itemId : Nat) :
    Except String ContractState :=
  if ¬ ((s.items itemId).owner = sender) then .error "Not the item owner"
  else if ¬ (itemId ≤ s.itemIds) then .error "Item does not exist"
  else if ¬ (s.items itemId).isActive then .error "Item is not active"
  else
    .ok (deactivateItemEffect s itemId)

/-- `getItem` (lines 301-304): only the upper id bound is checked. -/
def getItem (s : ContractState) (itemId : Nat) : Except String IPItem :=
  if ¬ (itemId ≤ s.itemIds) then .error "Item does not exist"
  else .ok (s.items itemId)

/-- `getRental` (lines 310-313): only the upper id bound is checked. -/
def getRental (s : ContractState) (rentalId : Nat) : Except String Rental :=
  if ¬ (rentalId ≤ s.rentalIds) then .error "Rental does not exist"
  else .ok (s.rentals rentalId)

/-- `getOwnershipHistory` (lines 319-322). -/
def getOwnershipHistory (s : ContractState) (itemId : Nat) :
    Except String (List OwnershipRecord) :=
  if ¬ (itemId ≤ s.itemIds) then .error "Item does not exist"
  else .ok (s.ownershipHistory itemId)

/-- `getItemRenters` (lines 328-331). -/
def getItemRenters (s : ContractState) (itemId : Nat) :
    Except String (List Nat) :=
  if ¬ (itemId ≤ s.itemIds) then .error "Item does not exist"
  else .ok (s.itemRenters itemId)

/-- `getUserItems` (lines 337-339): unchecked mapping read. -/
def getUserItems (s : ContractState) (user : Nat) : List Nat :=
  s.userItems user

/-- `getUserRentals` (lines 345-347): unchecked mapping read. -/
def getUserRentals (s : ContractState) (user : Nat) : List Nat :=
  s.userRentals user

/-- `hasActiveRental` (lines 354-367): scans the user's rental index and
returns true if some indexed rental matches the item, has its stored
`isActive` flag set, and its interval contains `now`. -/
def hasActiveRental (s : ContractState) (now itemId user : Nat) : Bool :=
  (s.userRentals user).any fun rid =>
    let rental := s.rentals rid
    rental.itemId == itemId && rental.isActive &&
      decide (now ≥ rental.startTime) && decide (now ≤ rental.endTime)

/-- `getTotalItems` (lines 372-374). -/
def getTotalItems (s : ContractState) : Nat := s.itemIds

/-- `getTotalRentals` (lines 379-381). -/
def getTotalRentals (s : ContractState) : Nat := s.rentalIds

/-- The collection loop of `getActiveItems` (lines 400-405): starting at
index `i`, scan `n` consecutive ids and keep the active items in order.
The second loop of the source (lines 408-411) only copies the `count`
filled slots of the oversized scratch array and so is the identity on
this list. -/
def activeScan (s : ContractState) : Nat → Nat → List IPItem
  | _, 0 => []
  | i, n + 1 =>
    if (s.items i).isActive then s.items i :: activeScan s (i + 1) n
    else activeScan s (i + 1) n

/-- `getActiveItems` (lines 388-414): requires `offset < totalItems`,
then scans ids `offset+1 .. min (offset+limit) totalItems`, keeping the
active items in id order. -/
def getActiveItems (s : ContractState) (offset limit : Nat) :
    Except String (List IPItem) :=
  if ¬ (offset < s.itemIds) then .error "Offset out of bounds"
  else
    .ok (activeScan s (offset + 1)
      ((if offset + limit > s.itemIds then s.itemIds else offset + limit) - offset))

/-- The five state-changing entry points of the contract, with their
call context (`msg.sender`, `msg.value`, `block.timestamp`) as data. -/
inductive Op where
  | create (sender now : Nat) (title description blobId : String)
      (price rentalPrice : Nat)
  | purchase (sender value now itemId : Nat)
  | rent (sender value now itemId startTime endTime : Nat)
  | updatePrices (sender itemId newPrice newRentalPrice : Nat)
  | deactivate (sender itemId : Nat)

/-- One transaction: a reverting call leaves the state unchanged, a
successful call commits the new state. -/
def step (s : ContractState) : Op → ContractState
  | .create sender now t d b p rp =>
    match createItem s sender now t d b p rp with
    | .ok (_, s') => s'
    | .error _ => s
  | .purchase sender value now itemId =>
    match purchaseItem s sender value now itemId with
    | .ok s' => s'
    | .error _ => s
  | .rent sender value now itemId st et =>
    match rentItem s sender value now itemId st et with
    | .ok s' => s'
    | .error _ => s
  | .updatePrices sender itemId p rp =>
    match updateItemPrices s sender itemId p rp with
    | .ok s' => s'
    | .error _ => s
  | .deactivate sender itemId =>
    match deactivateItem s sender itemId with
    | .ok s' => s'
    | .error _ => s

/-- The state after a sequence of transactions against a fresh
deployment: exactly the states reachable by the Ledger's operations. -/
def execOps (ops : List Op) : ContractState := ops.foldl step initState

namespace ContractService

/-!
The read accessors of the TypeScript `ContractService` class
(`src/unnamed/part_002`).  Each `async` accessor awaits one contract
call whose outcome — a value, or a rejected promise — is modelled as an
explicit `Except TransportError _` argument; the Lean function is the
rest of the method body: the field-by-field conversion of the raw
result, and the `try`/`catch` wrapper where the source has one.  A
method without a `catch` re-raises the rejection, i.e. returns
`Except.error`.
-/

/-- A rejected promise from the underlying provider/contract call. -/
inductive TransportError where
  | mk (msg : String)
  deriving DecidableEq, Repr

/-- Interface `RawIPItem` (bigint fields as `Nat`). -/
structure RawIPItem where
  itemId : Nat
  title : String
  description : String
  blobId : String
  owner : String
  price : Nat
  rentalPrice : Nat
  isActive : Bool
  createdAt : Nat
  totalRentals : Nat
  totalRevenue : Nat
  deriving DecidableEq, Repr

/-- The raw rental tuple returned by `contract.getRental`. -/
structure RawRental where
  rentalId : Nat
  itemId : Nat
  renter : String
  startTime : Nat
  endTime : Nat
  amountPaid : Nat
  isActive : Bool
  deriving DecidableEq, Repr

/-- Interface `RawOwnershipRecord`. -/
structure RawOwnershipRecord where
  owner : String
  timestamp : Nat
  price : Nat
  deriving DecidableEq, Repr

/-- Interface `IPItem` of the client: amounts as decimal strings. -/
structure IPItem where
  itemId : Nat
  title : String
  description : String
  blobId : String
  owner : String
  price : String
  rentalPrice : String
  isActive : Bool
  createdAt : Nat
  totalRentals : Nat
  totalRevenue : String
  deriving DecidableEq, Repr

/-- Interface `Rental` of the client. -/
structure Rental where
  rentalId : Nat
  itemId : Nat
  renter : String
  startTime : Nat
  endTime : Nat
  amountPaid : String
  isActive : Bool
  deriving DecidableEq, Repr

/-- Interface `OwnershipRecord` of the client. -/
structure OwnershipRecord where
  owner : String
  timestamp : Nat
  price : String
  deriving DecidableEq, Repr

/-- The object literal shared by `getItem` and `getActiveItems`:
`Number(..)` on ids/timestamps/counters, `.toString()` on amounts. -/
def convertItem (item : RawIPItem) : IPItem :=
  { itemId := item.itemId, title := item.title,
    description := item.description, blobId := item.blobId,
    owner := item.owner, price := toString item.price,
    rentalPrice := toString item.rentalPrice, isActive := item.isActive,
    createdAt := item.createdAt, totalRentals := item.totalRentals,
    totalRevenue := toString item.totalRevenue }

/-- `ContractService.getItem` (lines 392-407): converts the raw item;
no `catch`, so a transport failure propagates to the caller. -/
def getItem (r : Except TransportError RawIPItem) :
    Except TransportError IPItem :=
  match r with
  | .ok item => .ok (convertItem item)
  | .error e => .error e

/-- `ContractService.getRental` (lines 410-421): converts the raw
rental; no `catch`, so a transport failure propagates. -/
def getRental (r : Except TransportError RawRental) :
    Except TransportError Rental :=
  match r with
  | .ok rental =>
    .ok { rentalId := rental.rentalId, itemId := rental.itemId,
          renter := rental.renter, startTime := rental.startTime,
          endTime := rental.endTime,
          amountPaid := toString rental.amountPaid,
          isActive := rental.isActive }
  | .error e => .error e

/-- `ContractService.getActiveItems` (lines 424-445): converts each raw
item; the `catch` returns the empty array. -/
def getActiveItems (r : Except TransportError (List RawIPItem)) :
    List IPItem :=
  match r with
  | .ok items => items.map convertItem
  | .error _ => []

/-- `ContractService.getUserItems` (lines 448-456): `Number` on each
id; the `catch` returns the empty array. -/
def getUserItems (r : Except TransportError (List Nat)) : List Nat :=
  match r with
  | .ok itemIds => itemIds.map fun id => id
  | .error _ => []

/-- `ContractService.getUserRentals` (lines 459-467): `Number` on each
id; the `catch` returns the empty array. -/
def getUserRentals (r : Except TransportError (List Nat)) : List Nat :=
  match r with
  | .ok rentalIds => rentalIds.map fun id => id
  | .error _ => []

/-- `ContractService.getItemRenters` (lines 470-472): returns the
awaited call directly; no `catch`, so a transport failure propagates. -/
def getItemRenters (r : Except TransportError (List String)) :
    Except TransportError (List String) :=
  r

/-- `ContractService.getOwnershipHistory` (lines 475-482): converts
each record; no `catch`, so a transport failure propagates. -/
def getOwnershipHistory
    (r : Except TransportError (List RawOwnershipRecord)) :
    Except TransportError (List OwnershipRecord) :=
  match r with
  | .ok history =>
    .ok (history.map fun record =>
      { owner := record.owner, timestamp := record.timestamp,
        price := toString record.price })
  | .error e => .error e

/-- `ContractService.hasActiveRental` (lines 485-495): returns the raw
boolean; the `catch` returns `false`. -/
def hasActiveRental (r : Except TransportError Bool) : Bool :=
  match r with
  | .ok result => result
  | .error _ => false

/-- `ContractService.getTotalItems` (lines 498-506): `Number` on the
raw total; the `catch` returns `0`. -/
def getTotalItems (r : Except TransportError Nat) : Nat :=
  match r with
  | .ok total => total
  | .error _ => 0

/-- `ContractService.getTotalRentals` (lines 509-517): `Number` on the
raw total; the `catch` returns `0`. -/
def getTotalRentals (r : Except TransportError Nat) : Nat :=
  match r with
  | .ok total => total
  | .error _ => 0

end ContractService

/-! ### Concrete states used by witnesses and counterexamples -/

/-- One item: id 1, "Paper A", owner `1`, price 100, rentalPrice 10,
created at time 50. -/
def demoS1 : ContractState :=
  execOps [Op.create 1 50 "Paper A" "d" "blob" 100 10]

/-- One item: id 1, owner `1`, not for sale (price 0), rentalPrice 100
per day. -/
def demoRentS : ContractState :=
  execOps [Op.create 1 50 "Song" "d" "blob2" 0 100]

/-- Five items owned by `1`, then item 3 deactivated by its owner. -/
def demoFiveS : ContractState :=
  execOps
    [Op.create 1 10 "A" "" "b1" 5 0, Op.create 1 11 "B" "" "b2" 5 0,
     Op.create 1 12 "C" "" "b3" 5 0, Op.create 1 13 "D" "" "b4" 5 0,
     Op.create 1 14 "E" "" "b5" 5 0, Op.deactivate 1 3]

/-! ### Inversion lemmas: what a successful call requires and produces -/

/-- Successful `createItem` inverted: the three requires held, the
returned id is the incremented counter, and the new state is explicit. -/
lemma createItem_inv (s : ContractState) (sender now : Nat)
    (title description blobId : String) (price rentalPrice : Nat)
    (id : Nat) (s' : ContractState)
    (h : createItem s sender now title description blobId price rentalPrice =
      Except.ok (id, s')) :
    title ≠ "" ∧ blobId ≠ "" ∧ (0 < price ∨ 0 < rentalPrice) ∧
    id = s.itemIds + 1 ∧
    s' = createItemEffect s sender now title description blobId price
      rentalPrice := by
  unfold createItem at h
  split_ifs at h with h1 h2 h3
  push_neg at h3
  rw [Except.ok.injEq, Prod.mk.injEq] at h
  exact ⟨h1, h2, by omega, h.1.symm, h.2.symm⟩

/-- Successful `purchaseItem` inverted. -/
lemma purchaseItem_inv (s : ContractState) (sender value now itemId : Nat)
    (s' : ContractState)
    (h : purchaseItem s sender value now itemId = Except.ok s') :
    itemId ≤ s.itemIds ∧ (s.items itemId).isActive = true ∧
    0 < (s.items itemId).price ∧ (s.items itemId).price ≤ value ∧
    (s.items itemId).owner ≠ sender ∧
    s' = purchaseItemEffect s sender now itemId := by
  unfold purchaseItem at h
  split_ifs at h with h1 h2 h3 h4 h5
  push_neg at h1 h2 h3 h4
  rw [Except.ok.injEq] at h
  exact ⟨h1, by simpa using h2, h3, h4, h5, h.symm⟩

/-- Successful `rentItem` inverted. -/
lemma rentItem_inv (s : ContractState)
    (sender value now itemId startTime endTime : Nat) (s' : ContractState)
    (h : rentItem s sender value now itemId startTime endTime =
      Except.ok s') :
    itemId ≤ s.itemIds ∧ (s.items itemId).isActive = true ∧
    now ≤ startTime ∧ startTime < endTime ∧ endTime ≤ now + 31536000 ∧
    0 < (s.items itemId).rentalPrice ∧ (s.items itemId).owner ≠ sender ∧
    (endTime - startTime) * (s.items itemId).rentalPrice / 86400 ≤ value ∧
    s' = rentItemEffect s sender itemId startTime endTime := by
  unfold rentItem at h
  split_ifs at h with h1 h2 h3 h4 h5 h6 h7 h8
  push_neg at h1 h2 h3 h4 h5 h6 h8
  rw [Except.ok.injEq] at h
  exact ⟨h1, by simpa using h2, h3, h4, h5, h6, h7, h8, h.symm⟩

/-- Successful `updateItemPrices` inverted. -/
lemma updateItemPrices_inv (s : ContractState)
    (sender itemId newPrice newRentalPrice : Nat) (s' : ContractState)
    (h : updateItemPrices s sender itemId newPrice newRentalPrice =
      Except.ok s') :
    (s.items itemId).owner = sender ∧ itemId ≤ s.itemIds ∧
    (s.items itemId).isActive = true ∧
    (0 < newPrice ∨ 0 < newRentalPrice) ∧
    s' = updateItemPricesEffect s itemId newPrice newRentalPrice := by
  unfold updateItemPrices at h
  split_ifs at h with h1 h2 h3 h4
  push_neg at h1 h2 h3 h4
  rw [Except.ok.injEq] at h
  exact ⟨h1, h2, by simpa using h3, by omega, h.symm⟩

/-- Successful `deactivateItem` inverted. -/
lemma deactivateItem_inv (s : ContractState) (sender itemId : Nat)
    (s' : ContractState)
    (h : deactivateItem s sender itemId = Except.ok s') :
    (s.items itemId).owner = sender ∧ itemId ≤ s.itemIds ∧
    (s.items itemId).isActive = true ∧
    s' = deactivateItemEffect s itemId := by
  unfold deactivateItem at h
  split_ifs at h with h1 h2 h3
  push_neg at h1 h2 h3
  rw [Except.ok.injEq] at h
  exact ⟨h1, h2, by simpa using h3, h.symm⟩

/-- A general invariant-propagation principle for reachable states. -/
lemma exec_inv (P : ContractState → Prop) (h0 : P initState)
    (hstep : ∀ s op, P s → P (step s op)) (ops : List Op) :
    P (execOps ops) := by
  have main : ∀ (l : List Op) (s : ContractState), P s → P (l.foldl step s) := by
    intro l
    induction l with
    | nil => intro s hs; simpa using hs
    | cons op rest ih =>
      intro s hs
      exact ih (step s op) (hstep s op hs)
  exact main ops initState h0

example : demoS1.itemIds = 1 ∧ (demoS1.items 1).price = 100 := by decide

example : (demoFiveS.items 3).isActive = false ∧
    (demoFiveS.items 4).isActive = true := by decide

/-! ### Claims -/

/-- C4: a `purchaseItem` call on an item whose price is `0`, or with a
payment below the price, returns an error; and any erroring
`purchaseItem` call leaves the whole state — in particular the item's
owner, the ownership history and the caller's item index — unchanged. -/
theorem purchaseItem_fail_no_effect (s : ContractState)
    (sender value now itemId : Nat) :
    ((s.items itemId).price = 0 ∨ value < (s.items itemId).price →
      ∃ e, purchaseItem s sender value now itemId = Except.error e) ∧
    (∀ e, purchaseItem s sender value now itemId = Except.error e →
      step s (Op.purchase sender value now itemId) = s) := by
  constructor
  · intro h
    unfold purchaseItem
    split_ifs with h1 h2 h3 h4 h5 <;>
      first
        | exact ⟨_, rfl⟩
        | (exfalso; rcases h with h | h <;> omega)
  · intro e he
    simp [step, he]

/-- C4 witness: on the demo state, paying 50 for the 100-priced item 1
errors, and the transaction leaves the state unchanged. -/
theorem purchaseItem_fail_no_effect_witness :
    (∃ e, purchaseItem demoS1 2 50 60 1 = Except.error e) ∧
    step demoS1 (Op.purchase 2 50 60 1) = demoS1 := by
  have h := purchaseItem_fail_no_effect demoS1 2 50 60 1
  exact ⟨h.1 (Or.inr (by decide)), h.2 "Insufficient payment" (by rfl)⟩

/-- C5: after a successful `purchaseItem` by `sender`, the ownership
history of the item grows by exactly one entry, the last entry records
the purchaser and the item's price at purchase time, and the stored
owner is the purchaser. -/
theorem purchaseItem_success_postconditions (s : ContractState)
    (sender value now itemId : Nat) (s' : ContractState)
    (h : purchaseItem s sender value now itemId = Except.ok s') :
    getOwnershipHistory s' itemId =
      Except.ok (s.ownershipHistory itemId ++
        [⟨sender, now, (s.items itemId).price⟩]) ∧
    (s'.ownershipHistory itemId).length =
      (s.ownershipHistory itemId).length + 1 ∧
    (s'.ownershipHistory itemId).getLast? =
      some ⟨sender, now, (s.items itemId).price⟩ ∧
    (s'.items itemId).owner = sender := by
  obtain ⟨hle, hact, hpr, hval, hown, hs'⟩ :=
    purchaseItem_inv s sender value now itemId s' h
  subst hs'
  refine ⟨?_, ?_, ?_, ?_⟩
  · simp [getOwnershipHistory, purchaseItemEffect, hle]
  · simp [purchaseItemEffect]
  · simp [purchaseItemEffect, List.getLast?_concat]
  · simp [purchaseItemEffect]

/-- C5 witness: account 2 buys item 1 of the demo state for its price
100 at time 60; the history goes from one entry to two, ending in
`⟨2, 60, 100⟩`, and the stored owner becomes 2. -/
theorem purchaseItem_success_postconditions_witness :
    ∃ s', purchaseItem demoS1 2 100 60 1 = Except.ok s' ∧
      getOwnershipHistory s' 1 = Except.ok [⟨1, 50, 0⟩, ⟨2, 60, 100⟩] ∧
      (s'.ownershipHistory 1).length = 2 ∧
      (s'.items 1).owner = 2 := by
  refine ⟨_, rfl, ?_, ?_, ?_⟩
  · have h := purchaseItem_success_postconditions demoS1 2 100 60 1 _ rfl
    rw [h.1]; rfl
  · have h := purchaseItem_success_postconditions demoS1 2 100 60 1 _ rfl
    rw [h.2.1]; rfl
  · have h := purchaseItem_success_postconditions demoS1 2 100 60 1 _ rfl
    exact h.2.2.2

/-- C6: every successful `rentItem` stores (and adds to the item's
revenue) the amount `(endTime - startTime) * rentalPrice / 86400`,
truncating division, and a success implies the submitted payment was at
least this cost — equivalently, a payment below the cost can never
succeed, it reverts. -/
theorem rentItem_cost (s : ContractState)
    (sender value now itemId startTime endTime : Nat) :
    (∀ s', rentItem s sender value now itemId startTime endTime =
        Except.ok s' →
      (s'.rentals s'.rentalIds).amountPaid =
        (endTime - startTime) * (s.items itemId).rentalPrice / 86400 ∧
      (s'.items itemId).totalRevenue = (s.items itemId).totalRevenue +
        (endTime - startTime) * (s.items itemId).rentalPrice / 86400 ∧
      (endTime - startTime) * (s.items itemId).rentalPrice / 86400 ≤ value) ∧
    (value < (endTime - startTime) * (s.items itemId).rentalPrice / 86400 →
      ∃ e, rentItem s sender value now itemId startTime endTime =
        Except.error e) := by
  constructor
  · intro s' h
    obtain ⟨h1, h2, h3, h4, h5, h6, h7, h8, hs'⟩ :=
      rentItem_inv s sender value now itemId startTime endTime s' h
    subst hs'
    refine ⟨?_, ?_, h8⟩
    · simp [rentItemEffect]
    · simp [rentItemEffect]
  · intro hlt
    unfold rentItem
    split_ifs with h1 h2 h3 h4 h5 h6 h7 h8 <;>
      first
        | exact ⟨_, rfl⟩
        | (exfalso; exact not_lt.mpr h8 hlt)

/-- C6 witness: renting item 1 of `demoRentS` (rentalPrice 100 per day)
for 129600 seconds (1.5 days) costs exactly `150 = ⌊129600·100/86400⌋`,
and is charged into the item's revenue. -/
theorem rentItem_cost_witness :
    (∃ s', rentItem demoRentS 2 150 1000 1 1000 130600 = Except.ok s' ∧
      (s'.rentals s'.rentalIds).amountPaid = 150 ∧
      (s'.items 1).totalRevenue = 150) ∧
    (∃ e, rentItem demoRentS 2 149 1000 1 1000 130600 = Except.error e) := by
  constructor
  · refine ⟨_, rfl, ?_, ?_⟩
    · have h := (rentItem_cost demoRentS 2 150 1000 1 1000 130600).1 _ rfl
      rw [h.1]; rfl
    · have h := (rentItem_cost demoRentS 2 150 1000 1 1000 130600).1 _ rfl
      rw [h.2.1]; rfl
  · exact (rentItem_cost demoRentS 2 149 1000 1 1000 130600).2 (by decide)

/-- C9: a successful `purchaseItem` appends the item id to the buyer's
item index, leaves every other account's index (including the previous
owner's) exactly as it was, and consequently never removes an id from
any index: whatever `getUserItems` listed before the purchase it still
lists afterwards. -/
theorem purchaseItem_userItems_frame (s : ContractState)
    (sender value now itemId : Nat) (s' : ContractState)
    (h : purchaseItem s sender value now itemId = Except.ok s') :
    getUserItems s' sender = getUserItems s sender ++ [itemId] ∧
    (∀ a, a ≠ sender → getUserItems s' a = getUserItems s a) ∧
    (∀ a i, i ∈ getUserItems s a → i ∈ getUserItems s' a) := by
  obtain ⟨hle, hact, hpr, hval, hown, hs'⟩ :=
    purchaseItem_inv s sender value now itemId s' h
  subst hs'
  refine ⟨?_, ?_, ?_⟩
  · simp [getUserItems, purchaseItemEffect]
  · intro a ha
    simp [getUserItems, purchaseItemEffect, ha]
  · intro a i hi
    by_cases ha : a = sender
    · subst ha
      simp only [getUserItems, purchaseItemEffect, if_pos rfl]
      exact List.mem_append_left _ hi
    · simpa [getUserItems, purchaseItemEffect, ha] using hi

/-- C9 witness: account 2 buys item 1 of the demo state; the previous
owner 1 still has item 1 in its index, and the buyer's index gains it. -/
theorem purchaseItem_userItems_frame_witness :
    ∃ s', purchaseItem demoS1 2 100 60 1 = Except.ok s' ∧
      getUserItems s' 2 = [1] ∧ getUserItems s' 1 = [1] ∧
      (s'.items 1).owner = 2 := by
  refine ⟨_, rfl, ?_, ?_, ?_⟩
  · have h := purchaseItem_userItems_frame demoS1 2 100 60 1 _ rfl
    rw [h.1]; rfl
  · have h := purchaseItem_userItems_frame demoS1 2 100 60 1 _ rfl
    rw [h.2.1 1 (by decide)]; rfl
  · rfl

/-- C1 counterexample: on the demo state the owner's first
`deactivateItem` succeeds, but the owner's second call does not end with
the same outcome — it reverts with "Item is not active", refuting the
claim that the second call "does not error differently than the
first". -/
theorem deactivateItem_second_call_cex :
    (∃ s₁, deactivateItem demoS1 1 1 = Except.ok s₁) ∧
    deactivateItem (step demoS1 (Op.deactivate 1 1)) 1 1 =
      Except.error "Item is not active" := by
  exact ⟨⟨_, rfl⟩, rfl⟩

/-- C1 (amended): after a successful `deactivateItem`, the flag is
false; a repeated call leaves it false but, unlike the first call, it
reverts: the caller being the owner, the `itemExists` modifier now
rejects the inactive item with "Item is not active" (a non-owner's
repeat is still rejected by the ownership gate first), and the failed
repeat changes nothing, so `active` stays false both times. -/
theorem deactivateItem_second_call (s : ContractState)
    (sender itemId : Nat) (s₁ : ContractState)
    (h : deactivateItem s sender itemId = Except.ok s₁) :
    (s₁.items itemId).isActive = false ∧
    deactivateItem s₁ sender itemId = Except.error "Item is not active" ∧
    step s₁ (Op.deactivate sender itemId) = s₁ ∧
    (∀ other, (s₁.items itemId).owner ≠ other →
      deactivateItem s₁ other itemId = Except.error "Not the item owner") := by
  obtain ⟨hown, hle, hact, hs₁⟩ := deactivateItem_inv s sender itemId s₁ h
  subst hs₁
  have hflag : ((deactivateItemEffect s itemId).items itemId).isActive = false := by
    simp [deactivateItemEffect]
  have hsecond :
      deactivateItem (deactivateItemEffect s itemId) sender itemId =
        Except.error "Item is not active" := by
    unfold deactivateItem
    rw [if_neg, if_neg, if_pos]
    · simpa using hflag
    · simp [deactivateItemEffect, hle]
    · simp [deactivateItemEffect, hown]
  refine ⟨hflag, hsecond, by simp [step, hsecond], ?_⟩
  intro other hother
  unfold deactivateItem
  rw [if_pos]
  exact hother

/-- C2 counterexample: `ContractService.getOwnershipHistory`,
`getItem`, `getRental` and `getItemRenters` have no `catch`: a failed
contract call propagates out of them instead of producing an empty
collection or default, refuting "every read-only accessor ... returns
an empty collection or a zero/false default on any transport or query
failure". -/
theorem contractService_read_failure_cex :
    ContractService.getOwnershipHistory
        (Except.error (ContractService.TransportError.mk "network down")) =
      Except.error (ContractService.TransportError.mk "network down") ∧
    ContractService.getOwnershipHistory
        (Except.error (ContractService.TransportError.mk "network down")) ≠
      Except.ok [] ∧
    ContractService.getItem
        (Except.error (ContractService.TransportError.mk "network down")) =
      Except.error (ContractService.TransportError.mk "network down") ∧
    ContractService.getRental
        (Except.error (ContractService.TransportError.mk "network down")) =
      Except.error (ContractService.TransportError.mk "network down") ∧
    ContractService.getItemRenters
        (Except.error (ContractService.TransportError.mk "network down")) =
      Except.error (ContractService.TransportError.mk "network down") := by
  refine ⟨rfl, ?_, rfl, rfl, rfl⟩
  simp [ContractService.getOwnershipHistory]

/-- C2 (amended): only the six accessors `getActiveItems`,
`getUserItems`, `getUserRentals`, `hasActiveRental`, `getTotalItems`
and `getTotalRentals` degrade gracefully to an empty collection or
zero/false default on a transport failure; `getItem`, `getRental`,
`getItemRenters` and `getOwnershipHistory` propagate the failure to
their caller. -/
theorem contractService_read_degradation (e : ContractService.TransportError) :
    ContractService.getActiveItems (Except.error e) = [] ∧
    ContractService.getUserItems (Except.error e) = [] ∧
    ContractService.getUserRentals (Except.error e) = [] ∧
    ContractService.hasActiveRental (Except.error e) = false ∧
    ContractService.getTotalItems (Except.error e) = 0 ∧
    ContractService.getTotalRentals (Except.error e) = 0 ∧
    ContractService.getItem (Except.error e) = Except.error e ∧
    ContractService.getRental (Except.error e) = Except.error e ∧
    ContractService.getItemRenters (Except.error e) = Except.error e ∧
    ContractService.getOwnershipHistory (Except.error e) = Except.error e :=
  ⟨rfl, rfl, rfl, rfl, rfl, rfl, rfl, rfl, rfl, rfl⟩

/-- In every reachable state, mapping slot `0` of `items` and `rentals`
still holds its zero-initialised default: ids are allocated from `1`
up, and a write to an existing item requires its (necessarily
non-default) active flag. -/
lemma zero_id_inv (ops : List Op) :
    (execOps ops).items 0 = zeroItem ∧ (execOps ops).rentals 0 = zeroRental := by
  apply exec_inv (fun s => s.items 0 = zeroItem ∧ s.rentals 0 = zeroRental)
  · exact ⟨rfl, rfl⟩
  · intro s op hs
    cases op with
    | create sender now t d b p rp =>
      rcases hc : createItem s sender now t d b p rp with e | ⟨id, s'⟩
      · simpa [step, hc] using hs
      · obtain ⟨-, -, -, -, hs'⟩ := createItem_inv s sender now t d b p rp id s' hc
        subst hs'
        refine ⟨?_, ?_⟩
        · simp only [step, hc]
          simpa [createItemEffect] using hs.1
        · simp only [step, hc]
          simpa [createItemEffect] using hs.2
    | purchase sender value now itemId =>
      rcases hc : purchaseItem s sender value now itemId with e | s'
      · simpa [step, hc] using hs
      · obtain ⟨-, hact, -, -, -, hs'⟩ :=
          purchaseItem_inv s sender value now itemId s' hc
        subst hs'
        have hne : (0 : Nat) ≠ itemId := by
          intro h0
          rw [← h0, hs.1] at hact
          simp [zeroItem] at hact
        refine ⟨?_, ?_⟩
        · simp only [step, hc]
          simpa [purchaseItemEffect, hne] using hs.1
        · simp only [step, hc]
          simpa [purchaseItemEffect] using hs.2
    | rent sender value now itemId st et =>
      rcases hc : rentItem s sender value now itemId st et with e | s'
      · simpa [step, hc] using hs
      · obtain ⟨-, hact, -, -, -, -, -, -, hs'⟩ :=
          rentItem_inv s sender value now itemId st et s' hc
        subst hs'
        have hne : (0 : Nat) ≠ itemId := by
          intro h0
          rw [← h0, hs.1] at hact
          simp [zeroItem] at hact
        refine ⟨?_, ?_⟩
        · simp only [step, hc]
          simpa [rentItemEffect, hne] using hs.1
        · simp only [step, hc]
          have hr : (0 : Nat) ≠ s.rentalIds + 1 := by omega
          simpa [rentItemEffect, hr] using hs.2
    | updatePrices sender itemId p rp =>
      rcases hc : updateItemPrices s sender itemId p rp with e | s'
      · simpa [step, hc] using hs
      · obtain ⟨-, -, hact, -, hs'⟩ :=
          updateItemPrices_inv s sender itemId p rp s' hc
        subst hs'
        have hne : (0 : Nat) ≠ itemId := by
          intro h0
          rw [← h0, hs.1] at hact
          simp [zeroItem] at hact
        refine ⟨?_, ?_⟩
        · simp only [step, hc]
          simpa [updateItemPricesEffect, hne] using hs.1
        · simp only [step, hc]
          simpa [updateItemPricesEffect] using hs.2
    | deactivate sender itemId =>
      rcases hc : deactivateItem s sender itemId with e | s'
      · simpa [step, hc] using hs
      · obtain ⟨-, -, hact, hs'⟩ := deactivateItem_inv s sender itemId s' hc
        subst hs'
        have hne : (0 : Nat) ≠ itemId := by
          intro h0
          rw [← h0, hs.1] at hact
          simp [zeroItem] at hact
        refine ⟨?_, ?_⟩
        · simp only [step, hc]
          simpa [deactivateItemEffect, hne] using hs.1
        · simp only [step, hc]
          simpa [deactivateItemEffect] using hs.2

/-- C10: in every reachable state, `getItem 0` and `getRental 0` do not
fail — the existence check only bounds the identifier from above, and
`0 ≤ counter` always holds — and both return the zero-initialised
default record (zero addresses, zero numeric fields, `isActive =
false`), even though real identifiers start at 1. -/
theorem getItem_zero_default (ops : List Op) :
    getItem (execOps ops) 0 = Except.ok zeroItem ∧
    getRental (execOps ops) 0 = Except.ok zeroRental := by
  obtain ⟨h1, h2⟩ := zero_id_inv ops
  constructor
  · simp [getItem, h1]
  · simp [getRental, h2]

/-- Index invariant of the rental store: every rental id indexed under
some user was allocated (is at most the rental counter) and its stored
`isActive` flag is `true` — no operation ever writes `false` to it. -/
def RentalIndexInv (s : ContractState) : Prop :=
  ∀ u rid, rid ∈ s.userRentals u →
    rid ≤ s.rentalIds ∧ (s.rentals rid).isActive = true

lemma rentalIndexInv_exec (ops : List Op) : RentalIndexInv (execOps ops) := by
  apply exec_inv RentalIndexInv
  · intro u rid hmem
    simp [initState] at hmem
  · intro s op hs
    cases op with
    | create sender now t d b p rp =>
      rcases hc : createItem s sender now t d b p rp with e | ⟨id, s'⟩
      · simpa [step, hc] using hs
      · obtain ⟨-, -, -, -, hs'⟩ := createItem_inv s sender now t d b p rp id s' hc
        subst hs'
        intro u rid hmem
        simp only [step, hc]
        simp only [step, hc, createItemEffect] at hmem
        exact hs u rid hmem
    | purchase sender value now itemId =>
      rcases hc : purchaseItem s sender value now itemId with e | s'
      · simpa [step, hc] using hs
      · obtain ⟨-, -, -, -, -, hs'⟩ :=
          purchaseItem_inv s sender value now itemId s' hc
        subst hs'
        intro u rid hmem
        simp only [step, hc]
        simp only [step, hc, purchaseItemEffect] at hmem
        exact hs u rid hmem
    | rent sender value now itemId st et =>
      rcases hc : rentItem s sender value now itemId st et with e | s'
      · simpa [step, hc] using hs
      · obtain ⟨-, -, -, -, -, -, -, -, hs'⟩ :=
          rentItem_inv s sender value now itemId st et s' hc
        subst hs'
        intro u rid hmem
        simp only [step, hc] at hmem ⊢
        have hids : (rentItemEffect s sender itemId st et).rentalIds =
            s.rentalIds + 1 := rfl
        rw [hids]
        have hmem' : rid ∈ s.userRentals u ∨ rid = s.rentalIds + 1 := by
          by_cases hu : u = sender
          · subst hu
            simpa [rentItemEffect] using hmem
          · exact Or.inl (by simpa [rentItemEffect, hu] using hmem)
        rcases hmem' with hold | hnew
        · obtain ⟨hb, ha⟩ := hs u rid hold
          have hne : rid ≠ s.rentalIds + 1 := by omega
          refine ⟨by omega, ?_⟩
          simpa [rentItemEffect, hne] using ha
        · subst hnew
          refine ⟨by omega, ?_⟩
          simp [rentItemEffect]
    | updatePrices sender itemId p rp =>
      rcases hc : updateItemPrices s sender itemId p rp with e | s'
      · simpa [step, hc] using hs
      · obtain ⟨-, -, -, -, hs'⟩ :=
          updateItemPrices_inv s sender itemId p rp s' hc
        subst hs'
        intro u rid hmem
        simp only [step, hc]
        simp only [step, hc, updateItemPricesEffect] at hmem
        exact hs u rid hmem
    | deactivate sender itemId =>
      rcases hc : deactivateItem s sender itemId with e | s'
      · simpa [step, hc] using hs
      · obtain ⟨-, -, -, hs'⟩ := deactivateItem_inv s sender itemId s' hc
        subst hs'
        intro u rid hmem
        simp only [step, hc]
        simp only [step, hc, deactivateItemEffect] at hmem
        exact hs u rid hmem

/-- On any state satisfying the rental-index invariant, the stored
`isActive` conjunct of `hasActiveRental` is redundant: the scan is
equivalent to the pure time-window predicate. -/
lemma hasActiveRental_window_of_inv (s : ContractState)
    (hinv : RentalIndexInv s) (now itemId user : Nat) :
    hasActiveRental s now itemId user = true ↔
    ∃ rid ∈ s.userRentals user,
      (s.rentals rid).itemId = itemId ∧
      (s.rentals rid).startTime ≤ now ∧ now ≤ (s.rentals rid).endTime := by
  unfold hasActiveRental
  rw [List.any_eq_true]
  constructor
  · rintro ⟨rid, hmem, hpred⟩
    simp only [Bool.and_eq_true, beq_iff_eq, decide_eq_true_eq] at hpred
    exact ⟨rid, hmem, hpred.1.1.1, hpred.1.2, hpred.2⟩
  · rintro ⟨rid, hmem, h1, h2, h3⟩
    refine ⟨rid, hmem, ?_⟩
    have hact := (hinv user rid hmem).2
    simp [h1, h2, h3, hact]

/-- C3: in every state reachable by the Ledger's operations,
`hasActiveRental` returns `true` exactly when the current time lies
within the stored `[startTime, endTime]` interval of some rental
indexed under the user for that item — the stored per-rental `isActive`
flag plays no role, because every reachable rental has it `true`. -/
theorem hasActiveRental_time_window (ops : List Op) (now itemId user : Nat) :
    hasActiveRental (execOps ops) now itemId user = true ↔
    ∃ rid ∈ getUserRentals (execOps ops) user,
      ((execOps ops).rentals rid).itemId = itemId ∧
      ((execOps ops).rentals rid).startTime ≤ now ∧
      now ≤ ((execOps ops).rentals rid).endTime :=
  hasActiveRental_window_of_inv (execOps ops) (rentalIndexInv_exec ops)
    now itemId user

/-- The collection loop equals a filter of the scanned id window. -/
lemma activeScan_eq (s : ContractState) (n i : Nat) :
    activeScan s i n =
      ((List.range' i n).filter (fun k => (s.items k).isActive)).map s.items := by
  induction n generalizing i with
  | zero => simp [activeScan]
  | succ m ih =>
    rw [List.range'_succ]
    by_cases hA : (s.items i).isActive
    · simp [activeScan, hA, ih]
    · simp [activeScan, hA, ih]

/-- C7: `getActiveItems` fails whenever `offset ≥` the item counter;
otherwise it scans exactly the id window
`offset+1 .. min (offset+limit) total` and returns, in id order, the
active items of that window — inactive ids are skipped, so the result
may be shorter than `limit`. -/
theorem getActiveItems_window (s : ContractState) (offset limit : Nat) :
    (s.itemIds ≤ offset →
      getActiveItems s offset limit = Except.error "Offset out of bounds") ∧
    (offset < s.itemIds →
      getActiveItems s offset limit =
        Except.ok (((List.range' (offset + 1)
            (min (offset + limit) s.itemIds - offset)).filter
          (fun k => (s.items k).isActive)).map s.items)) := by
  constructor
  · intro hle
    unfold getActiveItems
    rw [if_pos]
    omega
  · intro hlt
    unfold getActiveItems
    rw [if_neg (by omega)]
    have he : (if offset + limit > s.itemIds then s.itemIds
        else offset + limit) = min (offset + limit) s.itemIds := by
      split <;> omega
    rw [he, activeScan_eq]

/-- C7 witness: five items with item 3 deactivated; `getActiveItems 0 5`
succeeds and returns the four items 1, 2, 4, 5 — fewer than `limit`. -/
theorem getActiveItems_window_witness :
    0 < demoFiveS.itemIds ∧
    ∃ l, getActiveItems demoFiveS 0 5 = Except.ok l ∧
      l.map (fun it => it.itemId) = [1, 2, 4, 5] ∧ l.length = 4 := by
  refine ⟨by decide, _, (getActiveItems_window demoFiveS 0 5).2 (by decide),
    ?_, ?_⟩ <;> decide

/-- The arguments of one `createItem` call (with its call context). -/
structure CreateArgs where
  sender : Nat
  now : Nat
  title : String
  description : String
  blobId : String
  price : Nat
  rentalPrice : Nat

/-- Whether a `createItem` call with these arguments passes its three
requires — this depends only on the arguments, never on the state. -/
def createOk (a : CreateArgs) : Bool :=
  (a.title != "") && (a.blobId != "") &&
    (decide (0 < a.price) || decide (0 < a.rentalPrice))

/-- Run a sequence of `createItem` calls, collecting the ids returned
by the successful ones (failed calls change nothing). -/
def runCreates : ContractState → List CreateArgs → List Nat × ContractState
  | s, [] => ([], s)
  | s, a :: rest =>
    match createItem s a.sender a.now a.title a.description a.blobId
        a.price a.rentalPrice with
    | .ok (id, s') =>
      ((id :: (runCreates s' rest).1), (runCreates s' rest).2)
    | .error _ => runCreates s rest

lemma createItem_of_createOk (s : ContractState) (a : CreateArgs)
    (h : createOk a = true) :
    createItem s a.sender a.now a.title a.description a.blobId a.price
        a.rentalPrice =
      Except.ok (s.itemIds + 1,
        createItemEffect s a.sender a.now a.title a.description a.blobId
          a.price a.rentalPrice) := by
  unfold createOk at h
  simp only [Bool.and_eq_true, bne_iff_ne, ne_eq, Bool.or_eq_true,
    decide_eq_true_eq] at h
  obtain ⟨⟨h1, h2⟩, h3⟩ := h
  unfold createItem
  rw [if_neg h1, if_neg h2, if_neg (not_not_intro h3)]

lemma createItem_of_not_createOk (s : ContractState) (a : CreateArgs)
    (h : createOk a = false) :
    ∃ e, createItem s a.sender a.now a.title a.description a.blobId a.price
        a.rentalPrice = Except.error e := by
  unfold createOk at h
  simp only [Bool.and_eq_false_iff, bne_eq_false_iff_eq, Bool.or_eq_false_iff,
    decide_eq_false_iff_not, not_lt, Nat.le_zero] at h
  unfold createItem
  split_ifs with h1 h2 h3 <;>
    first
      | exact ⟨_, rfl⟩
      | (exfalso
         push_neg at h3
         rcases h with (h | h) | ⟨hp, hr⟩ <;> simp_all)

/-- Successful creates are numbered consecutively from the current
counter, and the final counter advanced by their number. -/
lemma runCreates_spec (args : List CreateArgs) : ∀ s : ContractState,
    (runCreates s args).1 =
      List.range' (s.itemIds + 1) (args.filter createOk).length ∧
    (runCreates s args).2.itemIds =
      s.itemIds + (args.filter createOk).length := by
  induction args with
  | nil => intro s; simp [runCreates]
  | cons a rest ih =>
    intro s
    by_cases hOk : createOk a = true
    · have hc := createItem_of_createOk s a hOk
      have heff : (createItemEffect s a.sender a.now a.title a.description
          a.blobId a.price a.rentalPrice).itemIds = s.itemIds + 1 := by
        simp [createItemEffect]
      obtain ⟨ih1, ih2⟩ := ih (createItemEffect s a.sender a.now a.title
        a.description a.blobId a.price a.rentalPrice)
      rw [List.filter_cons_of_pos hOk]
      constructor
      · simp only [runCreates, hc, ih1, heff, List.length_cons,
          List.range'_succ]
      · simp only [runCreates, hc, ih2, heff, List.length_cons]
        omega
    · rw [Bool.not_eq_true] at hOk
      obtain ⟨e, hc⟩ := createItem_of_not_createOk s a hOk
      rw [List.filter_cons_of_neg (by simp [hOk])]
      simpa only [runCreates, hc] using ih s

/-- C8: over any sequence of `createItem` calls against a fresh store,
the ids returned by the successful calls are exactly `1, 2, 3, …` in
order — strictly increasing from 1, each the previous total plus one —
and afterwards `getTotalItems` equals the number of successful calls. -/
theorem createItem_ids_strictly_increasing (args : List CreateArgs) :
    (runCreates initState args).1 =
      List.range' 1 (args.filter createOk).length ∧
    ((runCreates initState args).1).Pairwise (· < ·) ∧
    getTotalItems (runCreates initState args).2 =
      (args.filter createOk).length := by
  obtain ⟨h1, h2⟩ := runCreates_spec args initState
  refine ⟨by simpa [initState] using h1, ?_, by simpa [getTotalItems, initState] using h2⟩
  rw [show (runCreates initState args).1 =
    List.range' 1 (args.filter createOk).length by simpa [initState] using h1]
  exact List.pairwise_lt_range' 1 ((args.filter createOk).length)

/-- C1 witness for the amended statement: the concrete double
deactivation of item 1 by its owner 1. -/
theorem deactivateItem_second_call_witness :
    ∃ s₁, deactivateItem demoS1 1 1 = Except.ok s₁ ∧
      (s₁.items 1).isActive = false ∧
      deactivateItem s₁ 1 1 = Except.error "Item is not active" ∧
      deactivateItem s₁ 2 1 = Except.error "Not the item owner" := by
  refine ⟨_, rfl, ?_, ?_, ?_⟩
  · exact (deactivateItem_second_call demoS1 1 1 _ rfl).1
  · exact (deactivateItem_second_call demoS1 1 1 _ rfl).2.1
  · exact (deactivateItem_second_call demoS1 1 1 _ rfl).2.2.2 2 (by decide)
